import Mathlib

/-!
Verification development for the teleNewsBot financial-news monitor.

The definitions below are a shallow embedding of the repository's Python
sources:

* `src/simple_solution.py` — the `FinancialNewsMonitor` class: the
  `summarize` pipeline (message concatenation, truncation, fallback
  artifacts), `send_summary_to_subscribers` (fan-out with per-recipient
  failure isolation), and the `monitor_and_summarize` loop body (dedup
  cursor, error recovery).
* `src/subscriber_db_sqlite.py` — the embedded file-based subscriber store.
* `src/subscriber_db.py` — the networked relational (PostgreSQL) store.
* `src/config/settings.py` and `main` of `src/simple_solution.py` — the
  interval configuration.

Python strings are modelled at the code-point level (`String.data` in
Lean), which matches Python's character-indexed slicing; machine-level
concerns do not arise. Fallible database backends are modelled by an
explicit `backendFails` outcome; operations that re-raise are modelled
with `Except`, operations that swallow errors return plain values.
-/

namespace TeleNewsBot

/-! ## Python string primitives

`pyTake s n` models `s[:n]`, `pyLen` models `len(s)`, `pyJoin` models
`sep.join(xs)`, `pyLower` models `s.lower()`, and `pyContains s pat`
models `pat in s` — all on code points, as in Python. -/

def pyTake (s : String) (n : Nat) : String :=
  ⟨s.data.take n⟩

def pyLen (s : String) : Nat :=
  s.data.length

def pyJoin (sep : String) (xs : List String) : String :=
  ⟨List.intercalate sep.data (xs.map String.data)⟩

def pyLower (s : String) : String :=
  ⟨s.data.map Char.toLower⟩

/-- `startsWithChars p l` is true when `p` is an initial segment of `l`. -/
def startsWithChars : List Char → List Char → Bool
  | [], _ => true
  | _ :: _, [] => false
  | p :: ps, c :: cs => p == c && startsWithChars ps cs

/-- `hasSubChars p l` is true when `p` occurs contiguously inside `l`. -/
def hasSubChars (p : List Char) : List Char → Bool
  | [] => p.isEmpty
  | c :: cs => startsWithChars p (c :: cs) || hasSubChars p cs

def pyContains (s pat : String) : Bool :=
  hasSubChars pat.data s.data

/-! ## Messages

`fetch_recent_messages` produces dicts `{"id": …, "date": …, "text": …}`,
newest first (`iter_messages` order), skipping empty-text messages. -/

structure Msg where
  id : Nat
  date : Nat
  text : String
deriving DecidableEq, Repr

/-! ## JSON values and the summary artifact

`summarize` returns either the dict parsed from the collaborator's raw
output (`json.loads`) or one of two literal fallback dicts. -/

inductive Json where
  | str (s : String)
  | num (n : Int)
  | bool (b : Bool)
  | null
  | arr (elems : List Json)
  | obj (fields : List (String × Json))
deriving Repr

/-- Dictionary field access: first binding for the key, if any. -/
def jsonGet : Json → String → Option Json
  | .obj fields, k => lookupField fields k
  | _, _ => none
where
  lookupField : List (String × Json) → String → Option Json
    | [], _ => none
    | (k2, v) :: rest, k => if k2 = k then some v else lookupField rest k

/-- The fallback dict built in `summarize` when `json.loads` raises
`JSONDecodeError` (src/simple_solution.py lines 249-256): the summary
embeds `result[:500]`. -/
def parseFallback (raw : String) : Json :=
  .obj [("summary",
          .str ("Summary could not be generated in the correct format. Here's the raw output: "
                 ++ pyTake raw 500 ++ "...")),
        ("potentially_impacted_stocks", .arr []),
        ("market_sectors", .arr []),
        ("sentiment", .str "neutral"),
        ("key_points", .arr [.str "Error: Unable to parse structured data"]),
        ("market_implications", .str "")]

/-- The fallback dict built when the collaborator request itself raises
(src/simple_solution.py lines 259-266). -/
def requestErrorFallback : Json :=
  .obj [("summary", .str "Error generating summary"),
        ("potentially_impacted_stocks", .arr []),
        ("market_sectors", .arr []),
        ("sentiment", .str "neutral"),
        ("key_points", .arr [.str "Failed to analyze news due to an error"]),
        ("market_implications", .str "")]

/-- Outcome of the OpenAI call inside `summarize`: either raw text
together with what `json.loads` returns on it (`some` a dict on success,
`none` when it raises `JSONDecodeError`), or a request/transport error. -/
inductive CollabOutcome where
  | output (raw : String) (parsed : Option Json)
  | requestError

/-- The batch text assembled and dispatched by `summarize`
(src/simple_solution.py lines 166-173): bodies joined, in fetched order,
by the separator, then truncated to 15000 code points with a marker. -/
def combinedTextOf (msgs : List Msg) : String :=
  let t := pyJoin "\n\n---\n\n" (msgs.map (fun m => m.text))
  if 15000 < pyLen t then pyTake t 15000 ++ "...(truncated)" else t

/-- `FinancialNewsMonitor.summarize` (src/simple_solution.py lines
160-266): `None` on an empty batch; otherwise the parsed collaborator
dict, or the parse fallback, or the request-error fallback. -/
def summarizeModel (msgs : List Msg) (resp : CollabOutcome) : Option Json :=
  if msgs.isEmpty then none
  else
    match resp with
    | .output _ (some j) => some j
    | .output raw none => some (parseFallback raw)
    | .requestError => some requestErrorFallback

/-- Modelled from the spec: the `SummaryArtifact` schema of spec §3
requires `summary`, `potentially_impacted_stocks`, `market_sectors`,
`sentiment` and `key_points` to be present. The source has no such
validator; this definition exists only to compare the spec's notion of
schema validity with what the code actually checks. -/
def specSchemaComplete (j : Json) : Bool :=
  (jsonGet j "summary").isSome
    && (jsonGet j "potentially_impacted_stocks").isSome
    && (jsonGet j "market_sectors").isSome
    && (jsonGet j "sentiment").isSome
    && (jsonGet j "key_points").isSome

/-! ## Subscriber store

One row of the `subscribers` table. Timestamps are abstracted to `Nat`
and supplied explicitly (`datetime.now()` / `datetime.utcnow()` at the
call site). A store is the table: a list of rows keyed by `user_id`;
`INTEGER PRIMARY KEY` keeps a replaced row at its rowid, so in-place
update is the faithful model of both backends' upserts. -/

structure Row where
  username : Option String
  firstName : Option String
  subscribedAt : Nat
  active : Bool
deriving DecidableEq, Repr

abbrev Store := List (Nat × Row)

/-- `SubscriberDB.add_subscriber` of src/subscriber_db_sqlite.py
(lines 37-51): `INSERT OR REPLACE` — the whole row, including
`subscribed_at`, is replaced with fresh values. -/
def sqliteAddSubscriber (st : Store) (id : Nat) (u f : Option String) (now : Nat) : Store :=
  if st.any (fun p => decide (p.1 = id)) then
    st.map (fun p => if p.1 = id then (id, ⟨u, f, now, true⟩) else p)
  else
    st ++ [(id, ⟨u, f, now, true⟩)]

/-- `SubscriberDB.remove_subscriber` of src/subscriber_db_sqlite.py
(lines 53-65): `UPDATE subscribers SET active = 0 WHERE user_id = ?`. -/
def sqliteRemoveSubscriber (st : Store) (id : Nat) : Store :=
  st.map (fun p => if p.1 = id then (p.1, { p.2 with active := false }) else p)

/-- `SubscriberDB.add_subscriber` of src/subscriber_db.py (lines 46-58):
`INSERT … ON CONFLICT (user_id) DO UPDATE SET active=TRUE, username=$2,
first_name=$3` — on conflict `subscribed_at` is left unchanged. -/
def pgAddSubscriber (st : Store) (id : Nat) (u f : Option String) (now : Nat) : Store :=
  if st.any (fun p => decide (p.1 = id)) then
    st.map (fun p =>
      if p.1 = id then (p.1, { p.2 with username := u, firstName := f, active := true }) else p)
  else
    st ++ [(id, ⟨u, f, now, true⟩)]

/-- `SubscriberDB.remove_subscriber` of src/subscriber_db.py
(lines 60-70): `UPDATE subscribers SET active=FALSE WHERE user_id=$1`. -/
def pgRemoveSubscriber (st : Store) (id : Nat) : Store :=
  st.map (fun p => if p.1 = id then (p.1, { p.2 with active := false }) else p)

/-- `get_active_subscribers` (both backends): ids of rows with the
active flag set. -/
def getActiveSubscribers (st : Store) : List Nat :=
  (st.filter (fun p => p.2.active)).map (fun p => p.1)

/-- `get_subscriber_count` (both backends): number of active rows. -/
def getSubscriberCount (st : Store) : Nat :=
  (st.filter (fun p => p.2.active)).length

/-- First row stored under `id`, if any. -/
def lookupRow : Store → Nat → Option Row
  | [], _ => none
  | p :: rest, id => if p.1 = id then some p.2 else lookupRow rest id

/-! ### Error signalling at the store boundary

The SQLite backend wraps every write in `try/except` and returns
`True`/`False`; the PostgreSQL backend logs and re-`raise`s. A failing
backend leaves the table unchanged (the transaction never commits). -/

/-- src/subscriber_db_sqlite.py `add_subscriber` with its `try/except`:
returns the new table and `True`, or the old table and `False`. -/
def sqliteAddSubscriberOp (st : Store) (id : Nat) (u f : Option String) (now : Nat)
    (backendFails : Bool) : Store × Bool :=
  if backendFails then (st, false) else (sqliteAddSubscriber st id u f now, true)

/-- src/subscriber_db_sqlite.py `remove_subscriber` with its
`try/except`: returns the new table and `True`, or the old table and
`False`. -/
def sqliteRemoveSubscriberOp (st : Store) (id : Nat) (backendFails : Bool) : Store × Bool :=
  if backendFails then (st, false) else (sqliteRemoveSubscriber st id, true)

/-- src/subscriber_db.py `add_subscriber`: the `except` clause logs and
re-raises, so a backend failure crosses the store boundary as an
exception (`Except.error`); on success the Python function returns
`None`, not a boolean. -/
def pgAddSubscriberOp (st : Store) (id : Nat) (u f : Option String) (now : Nat)
    (backendFails : Bool) : Except String Store :=
  if backendFails then .error "db error" else .ok (pgAddSubscriber st id u f now)

/-- src/subscriber_db.py `remove_subscriber`: logs and re-raises on
backend failure. -/
def pgRemoveSubscriberOp (st : Store) (id : Nat) (backendFails : Bool) : Except String Store :=
  if backendFails then .error "db error" else .ok (pgRemoveSubscriber st id)

/-! ### Backend comparison

Rows with the subscription timestamp erased, for stating exactly how far
the two backends agree. -/

structure ErasedRow where
  username : Option String
  firstName : Option String
  active : Bool
deriving DecidableEq, Repr

def eraseRow (r : Row) : ErasedRow :=
  ⟨r.username, r.firstName, r.active⟩

def eraseTs (st : Store) : List (Nat × ErasedRow) :=
  st.map (fun p => (p.1, eraseRow p.2))

/-- The common effect of both backends' upsert, on timestamp-erased
tables. -/
def erasedAdd (l : List (Nat × ErasedRow)) (id : Nat) (u f : Option String) :
    List (Nat × ErasedRow) :=
  if l.any (fun p => decide (p.1 = id)) then
    l.map (fun p => if p.1 = id then (id, ⟨u, f, true⟩) else p)
  else
    l ++ [(id, ⟨u, f, true⟩)]

/-- The common effect of both backends' soft delete, on timestamp-erased
tables. -/
def erasedRemove (l : List (Nat × ErasedRow)) (id : Nat) : List (Nat × ErasedRow) :=
  l.map (fun p => if p.1 = id then (p.1, { p.2 with active := false }) else p)

/-- Write operations of the store capability contract. -/
inductive StoreOp where
  | add (id : Nat) (u f : Option String) (now : Nat)
  | remove (id : Nat)

def applySqlite (st : Store) : StoreOp → Store
  | .add id u f now => sqliteAddSubscriber st id u f now
  | .remove id => sqliteRemoveSubscriber st id

def applyPg (st : Store) : StoreOp → Store
  | .add id u f now => pgAddSubscriber st id u f now
  | .remove id => pgRemoveSubscriber st id

def runSqlite (ops : List StoreOp) (st : Store) : Store :=
  ops.foldl applySqlite st

def runPg (ops : List StoreOp) (st : Store) : Store :=
  ops.foldl applyPg st

/-! ## Distribution engine

`send_summary_to_subscribers` (src/simple_solution.py lines 268-339).
Delivery and deregistration outcomes are oracles: `sendOk id` is whether
`bot_client.send_message` succeeds for `id`, and `removeFails id` is
whether the deregistration call for `id` hits a backend failure (in
which case the table is unchanged and the failure is only logged). -/

/-- The `for user_id in subscribers:` loop (lines 320-339): each send is
attempted inside `try`; on failure the recipient is deactivated, a
deregistration failure is swallowed, and the loop `continue`s. Returns
the ids a send was attempted for, in order, and the final table. -/
def sendLoop (subs : List Nat) (sendOk : Nat → Bool) (removeFails : Nat → Bool)
    (st : Store) : List Nat × Store :=
  match subs with
  | [] => ([], st)
  | id :: rest =>
    let st2 := if sendOk id then st
               else if removeFails id then st else sqliteRemoveSubscriber st id
    let out := sendLoop rest sendOk removeFails st2
    (id :: out.1, out.2)

structure SendOutcome where
  attempted : List Nat
  finalStore : Store
  storeRead : Bool
deriving Repr

/-- `send_summary_to_subscribers`: returns early on a `None` summary
without touching the store; returns after the read on an empty
subscriber list; otherwise runs the send loop. -/
def sendSummaryToSubscribers (summary : Option Json) (st : Store)
    (sendOk : Nat → Bool) (removeFails : Nat → Bool) : SendOutcome :=
  match summary with
  | none => ⟨[], st, false⟩
  | some _ =>
    let subs := getActiveSubscribers st
    if subs.isEmpty then ⟨[], st, true⟩
    else
      let out := sendLoop subs sendOk removeFails st
      ⟨out.1, out.2, true⟩

/-! ## Monitor loop body

`monitor_and_summarize` (src/simple_solution.py lines 341-387). -/

structure MonitorState where
  lastMessageId : Option Nat
  lastProcessedTime : Nat
deriving DecidableEq, Repr

structure CycleOutcome where
  newState : MonitorState
  summarizerInvoked : Bool
  distributorInvoked : Bool
  distributionSucceeded : Bool
deriving DecidableEq, Repr

/-- One normal (non-throwing-fetch) iteration of the `while True:` body
(lines 351-368). `msgs` is what `fetch_recent_messages` returned,
`summRes` is what `self.summarize(messages)` returned, `distThrows`
models an exception escaping `send_summary_to_subscribers`, and `now`
is the wall clock used for `last_processed_time`. The guard is
`messages and (last_message_id is None or messages[0]["id"] !=
last_message_id)`; the cursor is assigned before `summarize` is
called. -/
def monitorCycle (st : MonitorState) (msgs : List Msg) (summRes : Option Json)
    (distThrows : Bool) (now : Nat) : CycleOutcome :=
  match msgs with
  | [] => ⟨st, false, false, false⟩
  | m :: _ =>
    if st.lastMessageId = some m.id then ⟨st, false, false, false⟩
    else
      let st1 : MonitorState := { st with lastMessageId := some m.id }
      match summRes with
      | none => ⟨st1, true, false, false⟩
      | some _ =>
        if distThrows then ⟨st1, true, true, false⟩
        else ⟨{ st1 with lastProcessedTime := now }, true, true, true⟩

/-! ## Error recovery in the monitor loop

The `except` clause of the loop (lines 370-387). -/

inductive ReconnectStep where
  | disconnectReader
  | pause (seconds : Nat)
  | connectBoth
deriving DecidableEq, Repr

structure ErrorRecovery where
  reconnectSteps : List ReconnectStep
  sleepSeconds : Nat
  continuesLoop : Bool
deriving DecidableEq, Repr

/-- `"disconnected" in str(e).lower() or "connection" in str(e).lower()`. -/
def isConnectionError (errText : String) : Bool :=
  pyContains (pyLower errText) "disconnected" || pyContains (pyLower errText) "connection"

/-- The `except` clause: on a connection-flavoured error, disconnect the
reader, pause 5 seconds and reconnect (a reconnect failure is caught and
only logged, so the outcome is the same whether `reconnectFails` or
not); in every case sleep 60 seconds and continue the loop. -/
def handleMonitorError (errText : String) (reconnectFails : Bool) : ErrorRecovery :=
  if isConnectionError errText then
    { reconnectSteps := [.disconnectReader, .pause 5, .connectBoth],
      sleepSeconds := 60,
      continuesLoop := true }
  else
    { reconnectSteps := [], sleepSeconds := 60, continuesLoop := true }

/-! ## Interval configuration

`src/config/settings.py` lines 27-31 and `main` of
src/simple_solution.py line 618. The environment is modelled as the
parsed integer value of the variable, when set. -/

/-- `SUMMARY_INTERVAL = int(os.getenv('SUMMARY_INTERVAL', 300))`. -/
def summaryIntervalSetting (env : Option Nat) : Nat :=
  env.getD 300

/-- `TESTING_INTERVAL = int(os.getenv('TESTING_INTERVAL', 5))`. -/
def testingIntervalSetting (env : Option Nat) : Nat :=
  env.getD 5

/-- `interval = 5 if args.test else 180` in `main`; `settings.py` is not
consulted. -/
def mainInterval (testMode : Bool) : Nat :=
  if testMode then 5 else 180

/-! ## Theorems -/

/-- Python string concatenation adds code-point lengths. -/
theorem pyLen_append (a b : String) : pyLen (a ++ b) = pyLen a + pyLen b := by
  simp only [pyLen, String.data_append, List.length_append]

/-- Claim C1: for every monitor-loop cycle, if the fetched batch is
non-empty and its newest message id equals the stored cursor, neither
the summarizer nor the distributor is invoked and the cursor (indeed
the whole monitor state) is unchanged; if it differs or the cursor is
unset, the cursor is set to the newest fetched id and summarization is
attempted — and the cursor holds the new id no matter what the
summarizer returned or whether distribution threw, so the same batch is
never re-summarized after a failure. -/
theorem monitor_cursor_dedup (st : MonitorState) (m : Msg) (tl : List Msg)
    (summRes : Option Json) (distThrows : Bool) (now : Nat) :
    (st.lastMessageId = some m.id →
      monitorCycle st (m :: tl) summRes distThrows now = ⟨st, false, false, false⟩) ∧
    (st.lastMessageId ≠ some m.id →
      (monitorCycle st (m :: tl) summRes distThrows now).newState.lastMessageId = some m.id ∧
      (monitorCycle st (m :: tl) summRes distThrows now).summarizerInvoked = true) := by
  constructor
  · intro h
    simp [monitorCycle, h]
  · intro h
    cases summRes with
    | none => simp [monitorCycle, h]
    | some a => cases distThrows <;> simp [monitorCycle, h]

/-- Witness for `monitor_cursor_dedup` at concrete inputs: a batch whose
newest id 5 equals the cursor changes nothing, and with an unset cursor
the cursor is advanced to 5 even though distribution throws. -/
theorem monitor_cursor_dedup_witness :
    monitorCycle ⟨some 5, 0⟩ [⟨5, 0, "x"⟩] none false 9 = ⟨⟨some 5, 0⟩, false, false, false⟩ ∧
    (monitorCycle ⟨none, 0⟩ [⟨5, 0, "x"⟩] (some Json.null) true 9).newState.lastMessageId = some 5 :=
  ⟨(monitor_cursor_dedup ⟨some 5, 0⟩ ⟨5, 0, "x"⟩ [] none false 9).1 rfl,
   ((monitor_cursor_dedup ⟨none, 0⟩ ⟨5, 0, "x"⟩ [] (some Json.null) true 9).2 (by decide)).1⟩

/-- Claim C10: an empty fetch makes the whole cycle a no-op —
`summarize` returns `None` without calling the collaborator,
distribution with a `None` artifact returns without reading the store
or sending, and the monitor cycle leaves the cursor and the
last-distribution timestamp unchanged. -/
theorem empty_batch_noop (st : MonitorState) (resp : CollabOutcome) (store : Store)
    (sendOk removeFails : Nat → Bool) (summRes : Option Json) (distThrows : Bool) (now : Nat) :
    summarizeModel [] resp = none ∧
    sendSummaryToSubscribers none store sendOk removeFails = ⟨[], store, false⟩ ∧
    monitorCycle st [] summRes distThrows now = ⟨st, false, false, false⟩ :=
  ⟨rfl, rfl, rfl⟩

/-- Claim C7: for a non-empty batch the dispatched text is the bodies
joined, in fetched order, by the separator; if the joined text exceeds
15000 code points it is cut to 15000 and the truncation marker is
appended (total length 15014), otherwise it is dispatched unchanged. -/
theorem combined_text_truncation (msgs : List Msg) (hne : msgs ≠ []) :
    (pyLen (pyJoin "\n\n---\n\n" (msgs.map (fun m => m.text))) ≤ 15000 →
      combinedTextOf msgs = pyJoin "\n\n---\n\n" (msgs.map (fun m => m.text))) ∧
    (15000 < pyLen (pyJoin "\n\n---\n\n" (msgs.map (fun m => m.text))) →
      combinedTextOf msgs
        = pyTake (pyJoin "\n\n---\n\n" (msgs.map (fun m => m.text))) 15000 ++ "...(truncated)" ∧
      pyLen (combinedTextOf msgs) = 15014) := by
  constructor
  · intro h
    unfold combinedTextOf
    rw [if_neg (by omega)]
  · intro h
    have heq : combinedTextOf msgs
        = pyTake (pyJoin "\n\n---\n\n" (msgs.map (fun m => m.text))) 15000 ++ "...(truncated)" := by
      unfold combinedTextOf
      rw [if_pos h]
    refine ⟨heq, ?_⟩
    rw [heq]
    have hm : ("...(truncated)" : String).data.length = 14 := by decide
    simp only [pyLen, pyTake, String.data_append, List.length_append, List.length_take, hm]
    have : min 15000 (pyJoin "\n\n---\n\n" (msgs.map (fun m => m.text))).data.length = 15000 :=
      Nat.min_eq_left (Nat.le_of_lt h)
    simp [pyLen] at h ⊢
    omega

/-- Witness for `combined_text_truncation`: a one-message batch of body
length 5 is dispatched unchanged. -/
theorem combined_text_truncation_witness :
    combinedTextOf [⟨1, 0, "hello"⟩] = "hello" :=
  (combined_text_truncation [⟨1, 0, "hello"⟩] (by decide)).1 (by decide)

/-- Claim C8: the monitor loop's exception handler never terminates the
loop: it always continues after a 60 second retry sleep, runs the
bounded reconnect sequence (disconnect reader, 5 second pause,
reconnect both identities) exactly when the error text indicates a
connection/disconnection condition, and its outcome does not depend on
whether the reconnect attempt itself fails. -/
theorem monitor_error_recovery (errText : String) (reconnectFails : Bool) :
    (handleMonitorError errText reconnectFails).continuesLoop = true ∧
    (handleMonitorError errText reconnectFails).sleepSeconds = 60 ∧
    (isConnectionError errText = true →
      (handleMonitorError errText reconnectFails).reconnectSteps
        = [.disconnectReader, .pause 5, .connectBoth]) ∧
    (isConnectionError errText = false →
      (handleMonitorError errText reconnectFails).reconnectSteps = []) := by
  cases h : isConnectionError errText <;> simp [handleMonitorError, h]

/-- Witness for `monitor_error_recovery`: a connection-flavoured error
triggers the reconnect sequence and a plain error does not, both with a
failing reconnect and both continuing the loop. -/
theorem monitor_error_recovery_witness :
    (handleMonitorError "Connection lost" true).reconnectSteps
      = [.disconnectReader, .pause 5, .connectBoth] ∧
    (handleMonitorError "boom" true).reconnectSteps = [] ∧
    (handleMonitorError "boom" true).continuesLoop = true :=
  ⟨(monitor_error_recovery "Connection lost" true).2.2.1 (by decide),
   (monitor_error_recovery "boom" true).2.2.2 (by decide),
   (monitor_error_recovery "boom" true).1⟩

/-- Claim C9 counterexample: the recognized configuration option for
the summary interval (`SUMMARY_INTERVAL` in src/config/settings.py)
defaults to 300 minutes, not 180 as claimed. -/
theorem interval_default_counterexample :
    summaryIntervalSetting none = 300 ∧ summaryIntervalSetting none ≠ 180 := by
  decide

/-- Claim C9 as amended: the running monitor uses a hard-coded interval
of 180 minutes (5 in test mode) in `main`, not the configuration
module; the configuration module's summary-interval option defaults to
300 minutes and its test-interval option defaults to 5. -/
theorem interval_defaults :
    mainInterval false = 180 ∧ mainInterval true = 5 ∧
    summaryIntervalSetting none = 300 ∧ testingIntervalSetting none = 5 := by
  decide

/-- Claim C2 counterexample: the collaborator output `"{}"` is valid
JSON but not valid against the artifact schema, yet `summarize` returns
the parsed empty object as-is — with no `summary` field at all — rather
than the claimed fallback, so a partially-shaped artifact is handed on
to distribution. -/
theorem summarize_schema_counterexample :
    summarizeModel [⟨1, 0, "news"⟩] (.output "{}" (some (Json.obj []))) = some (Json.obj []) ∧
    specSchemaComplete (Json.obj []) = false ∧
    jsonGet (Json.obj []) "summary" = none :=
  ⟨rfl, rfl, rfl⟩

/-- Claim C2 as amended: only when the collaborator output cannot be
parsed as JSON does `summarize` substitute the fallback artifact — which
has empty impacted-stock and sector collections, neutral sentiment, and
a non-empty summary embedding the first 500 code points of the raw
output; output that parses as JSON is returned without any schema
validation. -/
theorem summarize_parse_fallback (msgs : List Msg) (raw : String) (j : Json)
    (hne : msgs ≠ []) :
    summarizeModel msgs (.output raw none) = some (parseFallback raw) ∧
    jsonGet (parseFallback raw) "potentially_impacted_stocks" = some (.arr []) ∧
    jsonGet (parseFallback raw) "market_sectors" = some (.arr []) ∧
    jsonGet (parseFallback raw) "sentiment" = some (.str "neutral") ∧
    (∃ s, jsonGet (parseFallback raw) "summary" = some (.str s) ∧ 0 < pyLen s ∧
      ∃ pre suf, s.data = pre ++ (pyTake raw 500).data ++ suf) ∧
    summarizeModel msgs (.output raw (some j)) = some j := by
  have hemp : msgs.isEmpty = false := by
    cases msgs with
    | nil => exact absurd rfl hne
    | cons a l => rfl
  refine ⟨by simp [summarizeModel, hemp], rfl, rfl, rfl, ?_, by simp [summarizeModel, hemp]⟩
  refine ⟨"Summary could not be generated in the correct format. Here's the raw output: "
            ++ pyTake raw 500 ++ "...", rfl, ?_, ?_⟩
  · rw [pyLen_append, pyLen_append]
    have h1 : 0 <
        pyLen "Summary could not be generated in the correct format. Here's the raw output: " := by
      decide
    omega
  · refine ⟨("Summary could not be generated in the correct format. Here's the raw output: " : String).data,
      ("..." : String).data, ?_⟩
    simp [String.data_append]

/-- Witness for `summarize_parse_fallback`: a concrete unparsable
output yields exactly the parse fallback artifact. -/
theorem summarize_parse_fallback_witness :
    summarizeModel [⟨1, 0, "n"⟩] (.output "oops" none) = some (parseFallback "oops") :=
  (summarize_parse_fallback [⟨1, 0, "n"⟩] "oops" Json.null (by decide)).1

/-- Claim C3 counterexample: a backend failure inside the PostgreSQL
backend's `add_subscriber` or `remove_subscriber` is re-raised, so the
exception does cross the store boundary and the caller receives no
boolean. -/
theorem pg_store_raises_counterexample :
    pgAddSubscriberOp [] 1 none none 0 true = .error "db error" ∧
    pgRemoveSubscriberOp [] 1 true = .error "db error" :=
  ⟨rfl, rfl⟩

/-- Claim C3 as amended: the SQLite backend's write operations always
return a boolean — `true` exactly when the backend succeeded — and
never propagate an exception, while the PostgreSQL backend's write
operations re-raise backend failures (and return the new table, not a
boolean, on success). -/
theorem store_write_error_signalling (st : Store) (id : Nat) (u f : Option String)
    (now : Nat) (backendFails : Bool) :
    (sqliteAddSubscriberOp st id u f now backendFails).2 = !backendFails ∧
    (sqliteRemoveSubscriberOp st id backendFails).2 = !backendFails ∧
    (backendFails = true →
      pgAddSubscriberOp st id u f now backendFails = .error "db error" ∧
      pgRemoveSubscriberOp st id backendFails = .error "db error") ∧
    (backendFails = false →
      pgAddSubscriberOp st id u f now backendFails = .ok (pgAddSubscriber st id u f now) ∧
      pgRemoveSubscriberOp st id backendFails = .ok (pgRemoveSubscriber st id)) := by
  cases backendFails <;>
    simp [sqliteAddSubscriberOp, sqliteRemoveSubscriberOp, pgAddSubscriberOp,
      pgRemoveSubscriberOp]

/-- Witness for `store_write_error_signalling`: on a concrete failing
call the SQLite backend reports `false`, and on a concrete succeeding
call the PostgreSQL backend returns the updated table. -/
theorem store_write_error_signalling_witness :
    (sqliteAddSubscriberOp [] 1 none none 0 true).2 = false ∧
    pgAddSubscriberOp [] 1 none none 0 false = .ok (pgAddSubscriber [] 1 none none 0) :=
  ⟨(store_write_error_signalling [] 1 none none 0 true).1,
   ((store_write_error_signalling [] 1 none none 0 false).2.2.2 rfl).1⟩

/-! ### Backend comparison lemmas (claim C4) -/

theorem any_key_eraseTs (st : Store) (id : Nat) :
    (eraseTs st).any (fun p => decide (p.1 = id)) = st.any (fun p => decide (p.1 = id)) := by
  induction st with
  | nil => rfl
  | cons p rest ih =>
    simp only [eraseTs, List.map_cons, List.any_cons] at ih ⊢
    rw [ih]

theorem eraseTs_sqliteAdd (st : Store) (id : Nat) (u f : Option String) (now : Nat) :
    eraseTs (sqliteAddSubscriber st id u f now) = erasedAdd (eraseTs st) id u f := by
  unfold sqliteAddSubscriber erasedAdd
  rw [any_key_eraseTs]
  split
  · simp only [eraseTs, List.map_map]
    refine List.map_congr_left ?_
    intro p _
    by_cases h : p.1 = id <;> simp [Function.comp, h, eraseRow]
  · simp [eraseTs, eraseRow]

theorem eraseTs_pgAdd (st : Store) (id : Nat) (u f : Option String) (now : Nat) :
    eraseTs (pgAddSubscriber st id u f now) = erasedAdd (eraseTs st) id u f := by
  unfold pgAddSubscriber erasedAdd
  rw [any_key_eraseTs]
  split
  · simp only [eraseTs, List.map_map]
    refine List.map_congr_left ?_
    intro p _
    by_cases h : p.1 = id <;> simp [Function.comp, h, eraseRow]
  · simp [eraseTs, eraseRow]

theorem eraseTs_sqliteRemove (st : Store) (id : Nat) :
    eraseTs (sqliteRemoveSubscriber st id) = erasedRemove (eraseTs st) id := by
  unfold sqliteRemoveSubscriber erasedRemove
  simp only [eraseTs, List.map_map]
  refine List.map_congr_left ?_
  intro p _
  by_cases h : p.1 = id <;> simp [Function.comp, h, eraseRow]

theorem eraseTs_pgRemove (st : Store) (id : Nat) :
    eraseTs (pgRemoveSubscriber st id) = erasedRemove (eraseTs st) id :=
  eraseTs_sqliteRemove st id

theorem eraseTs_step (op : StoreOp) (s1 s2 : Store) (h : eraseTs s1 = eraseTs s2) :
    eraseTs (applySqlite s1 op) = eraseTs (applyPg s2 op) := by
  cases op with
  | add id u f now =>
    simp only [applySqlite, applyPg, eraseTs_sqliteAdd, eraseTs_pgAdd, h]
  | remove id =>
    simp only [applySqlite, applyPg, eraseTs_sqliteRemove, eraseTs_pgRemove, h]

theorem eraseTs_run (ops : List StoreOp) (s1 s2 : Store) (h : eraseTs s1 = eraseTs s2) :
    eraseTs (runSqlite ops s1) = eraseTs (runPg ops s2) := by
  induction ops generalizing s1 s2 with
  | nil => exact h
  | cons op rest ih => exact ih _ _ (eraseTs_step op s1 s2 h)

theorem getActive_eq_erased (st : Store) :
    getActiveSubscribers st = ((eraseTs st).filter (fun p => p.2.active)).map (fun p => p.1) := by
  induction st with
  | nil => rfl
  | cons p rest ih =>
    by_cases h : p.2.active <;>
      simp [getActiveSubscribers, eraseTs, eraseRow, h] at ih ⊢ <;> exact ih

theorem count_eq_erased (st : Store) :
    getSubscriberCount st = ((eraseTs st).filter (fun p => p.2.active)).length := by
  induction st with
  | nil => rfl
  | cons p rest ih =>
    by_cases h : p.2.active <;>
      simp [getSubscriberCount, eraseTs, eraseRow, h] at ih ⊢ <;> exact ih

/-- Claim C4 counterexample: the observable stored row differs between
the two backends. Re-subscribing id 1 at time 2 (after a first
subscription at time 1) leaves `subscribed_at = 2` in the file-based
backend (`INSERT OR REPLACE` rewrites the whole row) but
`subscribed_at = 1` in the relational backend (`ON CONFLICT DO UPDATE`
keeps the original timestamp), so the backends are not observably
identical as claimed. -/
theorem backend_timestamp_counterexample :
    lookupRow (runSqlite [.add 1 (some "a") (some "A") 1, .add 1 (some "b") (some "B") 2] []) 1
      = some ⟨some "b", some "B", 2, true⟩ ∧
    lookupRow (runPg [.add 1 (some "a") (some "A") 1, .add 1 (some "b") (some "B") 2] []) 1
      = some ⟨some "b", some "B", 1, true⟩ ∧
    (2 : Nat) ≠ 1 :=
  ⟨rfl, rfl, by decide⟩

/-- Claim C4 as amended: the two backends agree observably on
everything except the stored subscription timestamp and the
failure signalling treated under claim C3: any one
call sequence of adds and removes, run from timestamp-agreeing states,
yields tables identical after erasing timestamps, and in particular
identical active-subscriber lists and counts. -/
theorem backend_equivalence_mod_timestamps (ops : List StoreOp) (s1 s2 : Store)
    (h : eraseTs s1 = eraseTs s2) :
    eraseTs (runSqlite ops s1) = eraseTs (runPg ops s2) ∧
    getActiveSubscribers (runSqlite ops s1) = getActiveSubscribers (runPg ops s2) ∧
    getSubscriberCount (runSqlite ops s1) = getSubscriberCount (runPg ops s2) := by
  have h1 := eraseTs_run ops s1 s2 h
  refine ⟨h1, ?_, ?_⟩
  · rw [getActive_eq_erased, getActive_eq_erased, h1]
  · rw [count_eq_erased, count_eq_erased, h1]

/-- Witness for `backend_equivalence_mod_timestamps`: a concrete
subscribe/unsubscribe/resubscribe sequence from the empty table gives
both backends the same active list. -/
theorem backend_equivalence_witness :
    getActiveSubscribers
        (runSqlite [.add 42 (some "alice") (some "Alice") 3, .remove 42, .add 42 none none 4] [])
      = getActiveSubscribers
        (runPg [.add 42 (some "alice") (some "Alice") 3, .remove 42, .add 42 none none 4] []) :=
  (backend_equivalence_mod_timestamps
    [.add 42 (some "alice") (some "Alice") 3, .remove 42, .add 42 none none 4] [] [] rfl).2.1

/-! ### Upsert and soft-delete lemmas (claim C5) -/

theorem keys_sqliteRemove (s : Store) (j : Nat) :
    (sqliteRemoveSubscriber s j).map Prod.fst = s.map Prod.fst := by
  unfold sqliteRemoveSubscriber
  simp only [List.map_map]
  refine List.map_congr_left ?_
  intro p _
  by_cases h : p.1 = j <;> simp [Function.comp, h]

theorem keys_sqliteAdd_mem (s : Store) (id : Nat) (u f : Option String) (t : Nat)
    (h : s.any (fun p => decide (p.1 = id)) = true) :
    (sqliteAddSubscriber s id u f t).map Prod.fst = s.map Prod.fst := by
  unfold sqliteAddSubscriber
  rw [if_pos h]
  simp only [List.map_map]
  refine List.map_congr_left ?_
  intro p _
  by_cases h2 : p.1 = id <;> simp [Function.comp, h2]

theorem keys_sqliteAdd_not_mem (s : Store) (id : Nat) (u f : Option String) (t : Nat)
    (h : s.any (fun p => decide (p.1 = id)) = false) :
    (sqliteAddSubscriber s id u f t).map Prod.fst = s.map Prod.fst ++ [id] := by
  unfold sqliteAddSubscriber
  rw [if_neg (by simp [h])]
  simp

theorem not_mem_keys_of_any_false (s : Store) (id : Nat)
    (h : s.any (fun p => decide (p.1 = id)) = false) :
    id ∉ s.map Prod.fst := by
  intro hmem
  obtain ⟨p, hp, hfst⟩ := List.mem_map.mp hmem
  have h2 : s.any (fun p => decide (p.1 = id)) = true :=
    List.any_eq_true.mpr ⟨p, hp, decide_eq_true hfst⟩
  rw [h] at h2
  exact Bool.false_ne_true h2

theorem mem_keys_of_any_true (s : Store) (id : Nat)
    (h : s.any (fun p => decide (p.1 = id)) = true) :
    id ∈ s.map Prod.fst := by
  obtain ⟨p, hp, he⟩ := List.any_eq_true.mp h
  exact List.mem_map.mpr ⟨p, hp, by simpa using he⟩

theorem nodup_keys_sqliteAdd (s : Store) (id : Nat) (u f : Option String) (t : Nat)
    (h : (s.map Prod.fst).Nodup) :
    ((sqliteAddSubscriber s id u f t).map Prod.fst).Nodup := by
  cases hany : s.any (fun p => decide (p.1 = id)) with
  | true => rw [keys_sqliteAdd_mem s id u f t hany]; exact h
  | false =>
    rw [keys_sqliteAdd_not_mem s id u f t hany]
    have hid := not_mem_keys_of_any_false s id hany
    simp [List.nodup_append, h, hid]

theorem filter_key_length (s : Store) (id : Nat) :
    (s.filter (fun p => decide (p.1 = id))).length = (s.map Prod.fst).count id := by
  induction s with
  | nil => rfl
  | cons p rest ih =>
    by_cases h : p.1 = id <;>
      simp [List.filter_cons, List.count_cons, h, ih]

theorem count_key_add (s : Store) (id : Nat) (u f : Option String) (t : Nat)
    (h : (s.map Prod.fst).Nodup) :
    ((sqliteAddSubscriber s id u f t).filter (fun p => decide (p.1 = id))).length = 1 := by
  rw [filter_key_length]
  cases hany : s.any (fun p => decide (p.1 = id)) with
  | true =>
    rw [keys_sqliteAdd_mem s id u f t hany]
    exact List.count_eq_one_of_mem h (mem_keys_of_any_true s id hany)
  | false =>
    rw [keys_sqliteAdd_not_mem s id u f t hany]
    have hid := not_mem_keys_of_any_false s id hany
    simp [List.count_append, List.count_eq_zero_of_not_mem hid]

theorem lookup_map_self (s : Store) (id : Nat) (r : Row)
    (h : s.any (fun p => decide (p.1 = id)) = true) :
    lookupRow (s.map (fun p => if p.1 = id then (id, r) else p)) id = some r := by
  induction s with
  | nil => simp at h
  | cons p rest ih =>
    by_cases hp : p.1 = id
    · simp [lookupRow, hp]
    · have hrest : rest.any (fun p => decide (p.1 = id)) = true := by
        simp [List.any_cons, hp] at h
        simpa using h
      simp [lookupRow, hp, ih hrest]

theorem lookup_append_self (s : Store) (id : Nat) (r : Row)
    (h : s.any (fun p => decide (p.1 = id)) = false) :
    lookupRow (s ++ [(id, r)]) id = some r := by
  induction s with
  | nil => simp [lookupRow]
  | cons p rest ih =>
    simp only [List.any_cons, Bool.or_eq_false_iff] at h
    have hp : ¬ p.1 = id := by simpa using h.1
    simp [lookupRow, hp, ih h.2]

theorem lookup_add_self (s : Store) (id : Nat) (u f : Option String) (t : Nat) :
    lookupRow (sqliteAddSubscriber s id u f t) id = some ⟨u, f, t, true⟩ := by
  unfold sqliteAddSubscriber
  cases hany : s.any (fun p => decide (p.1 = id)) with
  | true => rw [if_pos rfl]; exact lookup_map_self s id _ hany
  | false => rw [if_neg (by simp)]; exact lookup_append_self s id _ hany

/-- Claim C5: from any well-keyed table, add(id,h1,n1); remove(id);
add(id,h2,n2) leaves exactly one stored row for `id`, active and
carrying the latest handle/name (and timestamp), and the soft delete
never removes a key from the table. -/
theorem add_remove_add_upsert (st : Store) (id : Nat) (h1 n1 : Option String) (t1 : Nat)
    (h2 n2 : Option String) (t2 : Nat) (hnd : (st.map Prod.fst).Nodup) :
    ((sqliteAddSubscriber (sqliteRemoveSubscriber (sqliteAddSubscriber st id h1 n1 t1) id)
        id h2 n2 t2).filter (fun p => decide (p.1 = id))).length = 1 ∧
    lookupRow (sqliteAddSubscriber (sqliteRemoveSubscriber (sqliteAddSubscriber st id h1 n1 t1) id)
        id h2 n2 t2) id = some ⟨h2, n2, t2, true⟩ ∧
    ∀ (s : Store) (j : Nat), (sqliteRemoveSubscriber s j).map Prod.fst = s.map Prod.fst := by
  have hnd1 : ((sqliteRemoveSubscriber (sqliteAddSubscriber st id h1 n1 t1) id).map Prod.fst).Nodup := by
    rw [keys_sqliteRemove]
    exact nodup_keys_sqliteAdd st id h1 n1 t1 hnd
  exact ⟨count_key_add _ id h2 n2 t2 hnd1, lookup_add_self _ id h2 n2 t2, keys_sqliteRemove⟩

/-- Witness for `add_remove_add_upsert`: subscribe, unsubscribe and
re-subscribe id 7 in a table holding one unrelated subscriber. -/
theorem add_remove_add_upsert_witness :
    ((sqliteAddSubscriber (sqliteRemoveSubscriber
        (sqliteAddSubscriber [(3, ⟨none, none, 0, true⟩)] 7 (some "a") (some "A") 1) 7)
        7 (some "b") (some "B") 2).filter (fun p => decide (p.1 = 7))).length = 1 ∧
    lookupRow (sqliteAddSubscriber (sqliteRemoveSubscriber
        (sqliteAddSubscriber [(3, ⟨none, none, 0, true⟩)] 7 (some "a") (some "A") 1) 7)
        7 (some "b") (some "B") 2) 7 = some ⟨some "b", some "B", 2, true⟩ :=
  ⟨(add_remove_add_upsert [(3, ⟨none, none, 0, true⟩)] 7 (some "a") (some "A") 1
      (some "b") (some "B") 2 (by decide)).1,
   (add_remove_add_upsert [(3, ⟨none, none, 0, true⟩)] 7 (some "a") (some "A") 1
      (some "b") (some "B") 2 (by decide)).2.1⟩

/-! ### Distribution-pass lemmas (claim C6) -/

theorem sendLoop_attempted (subs : List Nat) (sOk rf : Nat → Bool) :
    ∀ st : Store, (sendLoop subs sOk rf st).1 = subs := by
  induction subs with
  | nil => intro st; rfl
  | cons id rest ih => intro st; simp [sendLoop, ih]

theorem sqliteRemove_idem (st : Store) (k : Nat) :
    sqliteRemoveSubscriber (sqliteRemoveSubscriber st k) k = sqliteRemoveSubscriber st k := by
  unfold sqliteRemoveSubscriber
  simp only [List.map_map]
  refine List.map_congr_left ?_
  intro p _
  by_cases h : p.1 = k <;> simp [Function.comp, h]

theorem sendLoop_state (k : Nat) (rf : Nat → Bool) (hrf : rf k = false) :
    ∀ (subs : List Nat) (st : Store),
      (sendLoop subs (fun id => decide (id ≠ k)) rf st).2
        = if k ∈ subs then sqliteRemoveSubscriber st k else st := by
  intro subs
  induction subs with
  | nil => intro st; simp [sendLoop]
  | cons id rest ih =>
    intro st
    simp only [decide_not] at ih
    by_cases h : id = k
    · subst h
      simp [sendLoop, hrf, ih]
      intro _
      exact sqliteRemove_idem st id
    · have hki : ¬ k = id := fun he => h he.symm
      simp [sendLoop, h, hki, ih]

theorem getActive_remove (st : Store) (k : Nat) :
    getActiveSubscribers (sqliteRemoveSubscriber st k)
      = (getActiveSubscribers st).filter (fun j => decide (j ≠ k)) := by
  induction st with
  | nil => rfl
  | cons p rest ih =>
    by_cases hk : p.1 = k <;> by_cases ha : p.2.active <;>
      simp [getActiveSubscribers, sqliteRemoveSubscriber, List.filter_cons, hk, ha] at ih ⊢ <;>
      simp [ih]

/-- Claim C6: with the active subscribers of a table and delivery
failing exactly for subscriber `k` (whose deregistration backend does
not itself fail), the distribution pass attempts a send for every
active subscriber in order, deactivates `k`, and leaves every other
subscriber active; and whatever the delivery and deregistration
outcomes are, a send is attempted for every active subscriber — a
deregistration failure never aborts the pass. -/
theorem distribution_failure_isolation (st : Store) (a : Json) (k : Nat) (rf : Nat → Bool)
    (hk : k ∈ getActiveSubscribers st) (hrf : rf k = false) :
    (sendSummaryToSubscribers (some a) st (fun id => decide (id ≠ k)) rf).attempted
        = getActiveSubscribers st ∧
    getActiveSubscribers
        (sendSummaryToSubscribers (some a) st (fun id => decide (id ≠ k)) rf).finalStore
        = (getActiveSubscribers st).filter (fun j => decide (j ≠ k)) ∧
    ∀ (sendOk rf2 : Nat → Bool),
      (sendSummaryToSubscribers (some a) st sendOk rf2).attempted = getActiveSubscribers st := by
  have hne : (getActiveSubscribers st).isEmpty = false := by
    cases hga : getActiveSubscribers st with
    | nil => rw [hga] at hk; simp at hk
    | cons x l => rfl
  have hatt : ∀ (sOk rf2 : Nat → Bool),
      (sendSummaryToSubscribers (some a) st sOk rf2).attempted = getActiveSubscribers st := by
    intro sOk rf2
    simp [sendSummaryToSubscribers, hne, sendLoop_attempted]
  refine ⟨hatt _ _, ?_, hatt⟩
  have hfin : (sendSummaryToSubscribers (some a) st (fun id => decide (id ≠ k)) rf).finalStore
      = sqliteRemoveSubscriber st k := by
    simp only [sendSummaryToSubscribers, hne, Bool.false_eq_true, if_false]
    rw [sendLoop_state k rf hrf]
    simp [hk]
  rw [hfin, getActive_remove]

/-- Witness for `distribution_failure_isolation`: three active
subscribers, delivery to 2 fails — all three attempted, 2 deactivated,
1 and 3 still active. -/
theorem distribution_failure_isolation_witness :
    (sendSummaryToSubscribers (some Json.null)
        [(1, ⟨none, none, 0, true⟩), (2, ⟨none, none, 0, true⟩), (3, ⟨none, none, 0, true⟩)]
        (fun id => decide (id ≠ 2)) (fun _ => false)).attempted = [1, 2, 3] ∧
    getActiveSubscribers (sendSummaryToSubscribers (some Json.null)
        [(1, ⟨none, none, 0, true⟩), (2, ⟨none, none, 0, true⟩), (3, ⟨none, none, 0, true⟩)]
        (fun id => decide (id ≠ 2)) (fun _ => false)).finalStore = [1, 3] :=
  ⟨(distribution_failure_isolation
      [(1, ⟨none, none, 0, true⟩), (2, ⟨none, none, 0, true⟩), (3, ⟨none, none, 0, true⟩)]
      Json.null 2 (fun _ => false) (by decide) rfl).1,
   (distribution_failure_isolation
      [(1, ⟨none, none, 0, true⟩), (2, ⟨none, none, 0, true⟩), (3, ⟨none, none, 0, true⟩)]
      Json.null 2 (fun _ => false) (by decide) rfl).2.1⟩

end TeleNewsBot
